import Mathlib

/-!
Verification of the OTA update engine (src/main/ota_update.c) and the MQTT
command dispatcher (command_handler.c, src/main/main.c) of the Esp-idf
soil-sensor project.

C strings are modelled as their NUL-free byte lists (a read past the end of
the list yields the terminating NUL byte).  Machine counters declared
uint32_t are modelled as naturals reduced modulo 2^32 on increment.
External ESP-IDF calls (HTTP client, partition API, FreeRTOS) are modelled
by environment records carrying their outcomes; the download loop consumes
a list of per-iteration events (sampled cancel flag, read result, write
outcome), an exhausted list behaving as esp_http_client_read returning 0.
-/

namespace EspIdf

/-- The states of ota_state_t in ota_update.h. -/
inductive OtaState
  | idle
  | downloading
  | verifying
  | installing
  | success
  | error
deriving DecidableEq, Repr

/-- The result kinds of ota_result_t in ota_update.h. -/
inductive OtaResult
  | success
  | urlError
  | downloadError
  | verifyError
  | installError
  | memoryError
  | networkError
deriving DecidableEq, Repr

/-- The esp_err_t values returned by the two modules.  invalidState is the
spec's StateError, invalidArg its ArgumentError, timeout its Busy. -/
inductive EspErr
  | ok
  | invalidArg
  | invalidState
  | noMem
  | timeout
  | invalidResponse
deriving DecidableEq, Repr

/-- Increment of a uint32_t counter. -/
def inc32 (n : Nat) : Nat := (n + 1) % 2 ^ 32

/-- ota_statistics_t.  last_version holds the bytes of the stored C string. -/
structure OtaStatistics where
  total_updates : Nat
  successful_updates : Nat
  failed_updates : Nat
  last_update_time : Nat
  last_version : List Nat
  last_result : OtaResult
deriving DecidableEq, Repr

/-- The all-zero statistics produced by memset(&ota_stats, 0, ...).  A zeroed
last_version field is the empty C string, and result code 0 is
OTA_RESULT_SUCCESS. -/
def zeroStats : OtaStatistics :=
  { total_updates := 0, successful_updates := 0, failed_updates := 0,
    last_update_time := 0, last_version := [], last_result := OtaResult.success }

/-- ota_config_t.  firmware_url and version hold the bytes of the C strings. -/
structure OtaConfig where
  firmware_url : List Nat
  version : List Nat
  auto_reboot : Bool
  timeout_ms : Nat
deriving DecidableEq, Repr

/-- The module-level mutable state of ota_update.c that the claims observe:
current_state, current_progress, ota_stats and cancel_requested.  The field
workers counts the successful xTaskCreate spawns of ota_task, so that
single-flight claims can state that no second worker appears. -/
structure OtaGlobals where
  current_state : OtaState
  current_progress : Nat
  ota_stats : OtaStatistics
  cancel_requested : Bool
  workers : Nat
deriving DecidableEq, Repr

/-- ota_is_updating: true in the three in-flight states only. -/
def ota_is_updating (g : OtaGlobals) : Bool :=
  !(g.current_state == OtaState.idle) &&
  !(g.current_state == OtaState.success) &&
  !(g.current_state == OtaState.error)

/-- ota_get_state. -/
def ota_get_state (g : OtaGlobals) : OtaState := g.current_state

/-- ota_get_progress. -/
def ota_get_progress (g : OtaGlobals) : Nat := g.current_progress

/-- ota_get_statistics with a non-null destination: a pure copy. -/
def ota_get_statistics (g : OtaGlobals) : OtaStatistics := g.ota_stats

/-- ota_cancel_update: StateError unless an update is in flight, otherwise
set the cooperative flag. -/
def ota_cancel_update (g : OtaGlobals) : EspErr × OtaGlobals :=
  if ota_is_updating g then (EspErr.ok, { g with cancel_requested := true })
  else (EspErr.invalidState, g)

/-- ota_reset_statistics: memset of the statistics only. -/
def ota_reset_statistics (g : OtaGlobals) : EspErr × OtaGlobals :=
  (EspErr.ok, { g with ota_stats := zeroStats })

/-- ota_start_update.  The argument task_create_ok is the outcome of
xTaskCreate.  Null config is rejected first with ESP_ERR_INVALID_ARG, then a
non-Idle state with ESP_ERR_INVALID_STATE; an accepted start clears the
cancel flag, spawns the worker, counts the attempt and enters Downloading.
The function performs no check on the firmware_url contents. -/
def ota_start_update (task_create_ok : Bool) (config : Option OtaConfig)
    (g : OtaGlobals) : EspErr × OtaGlobals :=
  match config with
  | none => (EspErr.invalidArg, g)
  | some _ =>
    if g.current_state ≠ OtaState.idle then (EspErr.invalidState, g)
    else
      let g1 := { g with cancel_requested := false }
      if task_create_ok then
        (EspErr.ok,
          { g1 with workers := g1.workers + 1,
                    ota_stats :=
                      { g1.ota_stats with
                          total_updates := inc32 g1.ota_stats.total_updates },
                    current_state := OtaState.downloading })
      else (EspErr.noMem, g1)

/-- Result of one esp_http_client_read call: a negative return (read error)
or a chunk of bytes, the empty chunk being the zero return (EOF). -/
inductive ReadRes
  | readErr
  | chunk (bytes : List Nat)
deriving DecidableEq, Repr

/-- One iteration of the download loop as ota_task observes it: the sampled
value of cancel_requested, the read result, and whether esp_ota_write
succeeds for this chunk. -/
structure OtaEvent where
  cancelSeen : Bool
  read : ReadRes
  write_ok : Bool
deriving DecidableEq, Repr

/-- Outcome of esp_ota_end: success, ESP_ERR_OTA_VALIDATE_FAILED, or any
other failure. -/
inductive OtaEndRes
  | endOk
  | validateFailed
  | otherErr
deriving DecidableEq, Repr

/-- Outcomes of the external ESP-IDF calls made by one ota_task run. -/
structure OtaEnv where
  client_init_ok : Bool
  partition_ok : Bool
  ota_begin_ok : Bool
  http_open_ok : Bool
  content_length : Int
  malloc_ok : Bool
  events : List OtaEvent
  ota_end : OtaEndRes
  set_boot_ok : Bool
  running_version : List Nat
  now : Nat
deriving DecidableEq, Repr

/-- sizeof(esp_image_header_t) on the ESP32 family: 24 bytes. -/
def imageHeaderSize : Nat := 24

/-- sizeof(esp_image_segment_header_t): 8 bytes. -/
def segmentHeaderSize : Nat := 8

/-- sizeof(esp_app_desc_t): 256 bytes. -/
def appDescSize : Nat := 256

/-- Offset of the version field inside esp_app_desc_t: after magic_word (4),
secure_version (4) and reserv1 (8). -/
def appDescVersionOffset : Nat := 16

/-- sizeof(esp_app_desc_t.version): 32 bytes. -/
def versionFieldSize : Nat := 32

/-- The bound the first chunk must exceed for the header check to run:
sizeof(esp_image_header_t) + sizeof(esp_image_segment_header_t) +
sizeof(esp_app_desc_t) = 288. -/
def headerBound : Nat := imageHeaderSize + segmentHeaderSize + appDescSize

/-- The 32 raw bytes of the embedded version field of a downloaded chunk, as
read by the memcpy at the fixed offset in ota_task. -/
def versionOf (bytes : List Nat) : List Nat :=
  List.take versionFieldSize
    (List.drop (imageHeaderSize + segmentHeaderSize + appDescVersionOffset) bytes)

/-- ota_validate_image_header on a non-null descriptor: ESP_OK (true) unless
memcmp over the full 32-byte version fields finds them identical. -/
def ota_validate_image_header (running_version new_version : List Nat) : Bool :=
  !(new_version == running_version)

/-- String content left in a 32-byte field by strncpy(dst, src, 31): the
bytes of src before its first NUL, at most 31 of them. -/
def cstr31 (src : List Nat) : List Nat :=
  List.take 31 (src.takeWhile (fun b => b != 0))

/-- ota_update_init: clears the statistics then records the running version
string. -/
def ota_update_init (running_version : List Nat) (g : OtaGlobals) :
    EspErr × OtaGlobals :=
  (EspErr.ok, { g with ota_stats := { zeroStats with last_version := cstr31 running_version } })

/-- The state of one ota_task execution: the module globals plus the
task-local context fields, together with observable instrumentation: the
trace of every value assigned to current_state, the chunks successfully
handed to esp_ota_write in order, and whether the integer percentage
computation ever divided by zero. -/
structure TaskSt where
  g : OtaGlobals
  header_checked : Bool
  new_version : List Nat
  downloaded : Nat
  binLen : Nat
  trace : List OtaState
  written : List (List Nat)
  divZero : Bool
deriving DecidableEq, Repr

/-- One assignment to current_state, recorded on the trace. -/
def pushState (t : TaskSt) (s : OtaState) : TaskSt :=
  { t with g := { t.g with current_state := s }, trace := t.trace ++ [s] }

/-- ota_update_progress: assigns current_progress, then current_state, then
invokes the progress callback (the callback has no effect on this state). -/
def progressUpdate (t : TaskSt) (p : Nat) (s : OtaState) : TaskSt :=
  pushState { t with g := { t.g with current_progress := p } } s

/-- The failure pattern written out at every error site of ota_task:
current_state = OTA_STATE_ERROR, ota_stats.failed_updates incremented,
ota_stats.last_result set to the classified kind. -/
def otaFail (t : TaskSt) (r : OtaResult) : TaskSt :=
  let t1 := pushState t OtaState.error
  { t1 with g := { t1.g with ota_stats :=
      { t1.g.ota_stats with
          failed_updates := inc32 t1.g.ota_stats.failed_updates,
          last_result := r } } }

/-- The one-time header check of the download loop: when the chunk is
strictly larger than headerBound and the check has not run yet, record the
discovered version and mark the header checked; otherwise leave the state
alone.  The failing-validation outcome is handled by the caller. -/
def applyHeader (bytes : List Nat) (t : TaskSt) : TaskSt :=
  if !t.header_checked && decide (headerBound < bytes.length) then
    { t with header_checked := true, new_version := versionOf bytes }
  else t

/-- The progress bookkeeping after a successful write: assign the integer
percentage downloaded*100/binLen to current_progress (divZero records a zero
divisor in that expression) and, when the percentage is a positive multiple
of ten, report it through ota_update_progress. -/
def stepProgress (t2 : TaskSt) : TaskSt :=
  if (t2.downloaded * 100 / t2.binLen) % 10 == 0 &&
     decide (0 < t2.downloaded * 100 / t2.binLen) then
    progressUpdate
      { t2 with divZero := t2.divZero || (t2.binLen == 0),
                g := { t2.g with current_progress := t2.downloaded * 100 / t2.binLen } }
      (t2.downloaded * 100 / t2.binLen) OtaState.downloading
  else
    { t2 with divZero := t2.divZero || (t2.binLen == 0),
              g := { t2.g with current_progress := t2.downloaded * 100 / t2.binLen } }

/-- A successful esp_ota_write followed by the progress bookkeeping. -/
def stepWrite (bytes : List Nat) (t1 : TaskSt) : TaskSt :=
  stepProgress { t1 with written := t1.written ++ [bytes],
                         downloaded := t1.downloaded + bytes.length }

/-- One iteration of the while(1) download loop of ota_task: sample the
cancel flag, read once, run the one-time header check, write the chunk and
update the progress.  The boolean is true when the loop continues with the
returned state and false when the iteration breaks (cancellation, read
error, EOF, failed validation or failed write). -/
def loopIter (env : OtaEnv) (e : OtaEvent) (t : TaskSt) : Bool × TaskSt :=
  if e.cancelSeen then (false, otaFail t OtaResult.downloadError)
  else
    match e.read with
    | ReadRes.readErr => (false, otaFail t OtaResult.downloadError)
    | ReadRes.chunk bytes =>
      if bytes.length = 0 then (false, t)
      else
        if !t.header_checked && decide (headerBound < bytes.length) &&
           !(ota_validate_image_header env.running_version (versionOf bytes)) then
          (false, otaFail t OtaResult.verifyError)
        else
          if !e.write_ok then
            (false, otaFail (applyHeader bytes t) OtaResult.installError)
          else (true, stepWrite bytes (applyHeader bytes t))

/-- The while(1) download loop of ota_task: run iterations until one breaks
or the event list is exhausted (an exhausted list behaves as
esp_http_client_read returning 0, the clean EOF break). -/
def downloadLoop (env : OtaEnv) : List OtaEvent → TaskSt → TaskSt
  | [], t => t
  | e :: rest, t =>
    let r := loopIter env e t
    if r.1 then downloadLoop env rest r.2 else r.2

/-- The statistics updates of the success branch of ota_task: count the
success, record the result, the time and the discovered version string. -/
def recordSuccess (env : OtaEnv) (t3 : TaskSt) : TaskSt :=
  { t3 with g := { t3.g with ota_stats :=
      { t3.g.ota_stats with
          successful_updates := inc32 t3.g.ota_stats.successful_updates,
          last_result := OtaResult.success,
          last_update_time := env.now,
          last_version := cstr31 t3.new_version } } }

/-- The esp_ota_set_boot_partition step and the success epilogue of
ota_task (the optional auto reboot does not change the modelled state). -/
def afterInstall (env : OtaEnv) (t2 : TaskSt) : TaskSt :=
  if !env.set_boot_ok then otaFail t2 OtaResult.installError
  else progressUpdate (recordSuccess env (pushState t2 OtaState.success)) 100 OtaState.success

/-- The esp_ota_end step of ota_task: a validation failure is classified
VerifyError, any other failure InstallError, and success moves on to
Installing. -/
def afterVerify (env : OtaEnv) (t1 : TaskSt) : TaskSt :=
  match env.ota_end with
  | OtaEndRes.validateFailed => otaFail t1 OtaResult.verifyError
  | OtaEndRes.otherErr => otaFail t1 OtaResult.installError
  | OtaEndRes.endOk =>
    afterInstall env (progressUpdate (pushState t1 OtaState.installing) 98 OtaState.installing)

/-- The verify/install tail of ota_task, entered after the loop: skipped
entirely when the loop left current_state = OTA_STATE_ERROR. -/
def afterLoop (env : OtaEnv) (t : TaskSt) : TaskSt :=
  if t.g.current_state ≠ OtaState.error then
    afterVerify env (progressUpdate (pushState t OtaState.verifying) 95 OtaState.verifying)
  else t

/-- ota_task: the download worker.  The configuration only feeds the HTTP
client and the final optional reboot, neither of which changes the modelled
state, so it is not a parameter.  The ota_end label publishes a message and
deletes the task without touching the modelled state. -/
def otaTask (env : OtaEnv) (g : OtaGlobals) : TaskSt :=
  let t0 : TaskSt :=
    { g := g, header_checked := false, new_version := List.replicate 32 0,
      downloaded := 0, binLen := 0, trace := [], written := [], divZero := false }
  let t := progressUpdate t0 0 OtaState.downloading
  if !env.client_init_ok then otaFail t OtaResult.networkError
  else if !env.partition_ok then otaFail t OtaResult.installError
  else if !env.ota_begin_ok then otaFail t OtaResult.installError
  else if !env.http_open_ok then otaFail t OtaResult.networkError
  else if env.content_length < 0 then otaFail t OtaResult.downloadError
  else
    let t1 := { t with binLen := env.content_length.toNat }
    if !env.malloc_ok then otaFail t1 OtaResult.memoryError
    else afterLoop env (downloadLoop env env.events t1)

/-- States taken by a start call followed by the complete worker run: the
initial state, then every assignment made by ota_start_update and ota_task. -/
def runTrace (tco : Bool) (env : OtaEnv) (cfg : OtaConfig) (g : OtaGlobals) :
    List OtaState :=
  let r := ota_start_update tco (some cfg) g
  if r.1 = EspErr.ok then
    g.current_state :: OtaState.downloading :: (otaTask env r.2).trace
  else [g.current_state]

/-- One edge of the state DAG the specification describes. -/
def dagEdge : OtaState → OtaState → Bool
  | OtaState.idle, OtaState.downloading => true
  | OtaState.downloading, OtaState.verifying => true
  | OtaState.downloading, OtaState.error => true
  | OtaState.verifying, OtaState.installing => true
  | OtaState.verifying, OtaState.error => true
  | OtaState.installing, OtaState.success => true
  | OtaState.installing, OtaState.error => true
  | _, _ => false

/-- A step either stays in place or follows a DAG edge. -/
def allowedStep (s t : OtaState) : Prop := s = t ∨ dagEdge s t = true

/-- command_type_t in command_handler.h. -/
inductive CommandType
  | water
  | getStatus
  | getReading
  | otaUpdate
  | otaStatus
  | otaCancel
  | unknown
deriving DecidableEq, Repr

/-- strncmp(s1, s2, n) == 0 over NUL-free byte strings: a read past a list
end yields the terminating NUL, so a shorter list against a longer one
differs at the terminator. -/
def strncmpEq : List Nat → List Nat → Nat → Bool
  | _, _, 0 => true
  | [], [], _ + 1 => true
  | [], _ :: _, _ + 1 => false
  | _ :: _, [], _ + 1 => false
  | a :: s1, b :: s2, n + 1 => a == b && strncmpEq s1 s2 n

/-- Bytes of the command literal WATER. -/
def lit_WATER : List Nat := [87, 65, 84, 69, 82]

/-- UTF-8 bytes of the localized watering alias (two CJK characters). -/
def lit_water_zh : List Nat := [230, 190, 134, 230, 176, 180]

/-- Bytes of the command literal GET_STATUS. -/
def lit_GET_STATUS : List Nat := [71, 69, 84, 95, 83, 84, 65, 84, 85, 83]

/-- Bytes of the command literal GET_READING. -/
def lit_GET_READING : List Nat := [71, 69, 84, 95, 82, 69, 65, 68, 73, 78, 71]

/-- Bytes of the command literal OTA_UPDATE. -/
def lit_OTA_UPDATE : List Nat := [79, 84, 65, 95, 85, 80, 68, 65, 84, 69]

/-- Bytes of the command literal OTA_STATUS. -/
def lit_OTA_STATUS : List Nat := [79, 84, 65, 95, 83, 84, 65, 84, 85, 83]

/-- Bytes of the command literal OTA_CANCEL. -/
def lit_OTA_CANCEL : List Nat := [79, 84, 65, 95, 67, 65, 78, 67, 69, 76]

/-- parse_command: null or non-positive length yields CMD_UNKNOWN, otherwise
strncmp comparisons bounded by cmd_len against the fixed literals, in source
order. -/
def parse_command (command_str : Option (List Nat)) (cmd_len : Int) : CommandType :=
  match command_str with
  | none => CommandType.unknown
  | some s =>
    if cmd_len ≤ 0 then CommandType.unknown
    else
      let n := cmd_len.toNat
      if strncmpEq s lit_water_zh n || strncmpEq s lit_WATER n then CommandType.water
      else if strncmpEq s lit_GET_STATUS n then CommandType.getStatus
      else if strncmpEq s lit_GET_READING n then CommandType.getReading
      else if strncmpEq s lit_OTA_UPDATE n then CommandType.otaUpdate
      else if strncmpEq s lit_OTA_STATUS n then CommandType.otaStatus
      else if strncmpEq s lit_OTA_CANCEL n then CommandType.otaCancel
      else CommandType.unknown

/-- mqtt_command_t: type, the stored data string, and the receipt timestamp. -/
structure MqttCommand where
  type : CommandType
  data : List Nat
  timestamp : Nat
deriving DecidableEq, Repr

/-- COMMAND_QUEUE_SIZE from command_handler.c. -/
def COMMAND_QUEUE_SIZE : Nat := 10

/-- The command_handler.c module state the claims observe: the queue handle,
none before command_handler_init has created it. -/
structure CmdGlobals where
  command_queue : Option (List MqttCommand)
deriving DecidableEq, Repr

/-- String content stored into the 64-byte data field by
strncpy(command.data, data, 63) plus the forced terminator. -/
def cstr63 (src : List Nat) : List Nat :=
  List.take 63 (src.takeWhile (fun b => b != 0))

/-- enqueue_command: build the command (a null data pointer stores the empty
string), then a non-blocking xQueueSend onto the capacity-10 queue;
ESP_ERR_TIMEOUT when the queue is full. -/
def enqueue_command (g : CmdGlobals) (cmd_type : CommandType)
    (data : Option (List Nat)) (now : Nat) : EspErr × CmdGlobals :=
  match g.command_queue with
  | none => (EspErr.invalidState, g)
  | some q =>
    let command : MqttCommand :=
      { type := cmd_type,
        data := match data with | some d => cstr63 d | none => [],
        timestamp := now }
    if q.length < COMMAND_QUEUE_SIZE then
      (EspErr.ok, { g with command_queue := some (q ++ [command]) })
    else (EspErr.timeout, g)

/-- Conditions of the MQTT response path seen by command_handler.c: whether
get_mqtt_client returns a client and whether the publish call succeeds. -/
structure CmdEnv where
  client_present : Bool
  publish_ok : Bool
deriving DecidableEq, Repr

/-- send_mqtt_response.  The message text never influences the outcome. -/
def send_mqtt_response (cenv : CmdEnv) (message : Option (List Nat)) : EspErr :=
  match message with
  | none => EspErr.invalidArg
  | some _ =>
    if !cenv.client_present then EspErr.invalidArg
    else if cenv.publish_ok then EspErr.ok
    else EspErr.invalidResponse

/-- execute_ota_update_command: reject a null or empty URL (the rejection
code is ESP_ERR_INVALID_ARG only when the response publish itself returns
ESP_OK), then the duplicate in-flight guard, then build the configuration
(URL truncated to 255 bytes, version filled from the running firmware) and
delegate to ota_start_update.  The responses published afterwards do not
change the modelled state. -/
def execute_ota_update_command (cenv : CmdEnv) (task_create_ok : Bool)
    (running_version : List Nat) (firmware_url : Option (List Nat))
    (g : OtaGlobals) : EspErr × OtaGlobals :=
  match firmware_url with
  | none =>
    let r := send_mqtt_response cenv (some [])
    (if r = EspErr.ok then EspErr.invalidArg else r, g)
  | some url =>
    if url.length = 0 then
      let r := send_mqtt_response cenv (some [])
      (if r = EspErr.ok then EspErr.invalidArg else r, g)
    else if ota_is_updating g then
      let r := send_mqtt_response cenv (some [])
      (if r = EspErr.ok then EspErr.invalidState else r, g)
    else
      let cfg : OtaConfig :=
        { firmware_url := List.take 255 url, version := cstr31 running_version,
          auto_reboot := true, timeout_ms := 30000 }
      ota_start_update task_create_ok (some cfg) g

/-- The MQTT_EVENT_DATA branch of mqtt_event_handler in main.c: parse the
payload, and for every recognized command enqueue it with a null data
pointer; unknown commands are answered over MQTT but never enqueued. -/
def mqtt_on_data (data : Option (List Nat)) (data_len : Int) (now : Nat)
    (g : CmdGlobals) : CmdGlobals :=
  let cmd_type := parse_command data data_len
  if cmd_type ≠ CommandType.unknown then (enqueue_command g cmd_type none now).2
  else g

/-- An event that continues the download loop with a chunk too short for the
header check: no cancellation, a nonempty chunk of at most headerBound
bytes, and a successful write. -/
def shortOkEvent (e : OtaEvent) : Bool :=
  !e.cancelSeen && e.write_ok &&
  (match e.read with
   | ReadRes.chunk b => decide (0 < b.length) && decide (b.length ≤ headerBound)
   | ReadRes.readErr => false)

/-- The chunk carried by an event (empty for a read error). -/
def chunkBytes (e : OtaEvent) : List Nat :=
  match e.read with
  | ReadRes.chunk b => b
  | ReadRes.readErr => []

/-- Invariant carried through ota_task: the trace of state assignments is a
chain of allowed steps, starts at Downloading, and ends at the current
state. -/
def traceInv (t : TaskSt) : Prop :=
  List.Chain' allowedStep t.trace ∧
  t.trace.head? = some OtaState.downloading ∧
  t.trace.getLast? = some t.g.current_state

/-- A fresh module state: Idle, zero statistics, no worker. -/
def gIdle0 : OtaGlobals :=
  { current_state := OtaState.idle, current_progress := 0, ota_stats := zeroStats,
    cancel_requested := false, workers := 0 }

/-- A module state mid-download. -/
def gDown0 : OtaGlobals :=
  { current_state := OtaState.downloading, current_progress := 0,
    ota_stats := zeroStats, cancel_requested := false, workers := 1 }

/-- A module state in the terminal Success state. -/
def gSucc0 : OtaGlobals :=
  { current_state := OtaState.success, current_progress := 100,
    ota_stats := zeroStats, cancel_requested := false, workers := 1 }

/-- A module state in the terminal Error state. -/
def gErr0 : OtaGlobals :=
  { current_state := OtaState.error, current_progress := 40,
    ota_stats := zeroStats, cancel_requested := false, workers := 1 }

/-- An environment in which every external call succeeds and the download is
a single 3-byte chunk. -/
def envShort : OtaEnv :=
  { client_init_ok := true, partition_ok := true, ota_begin_ok := true,
    http_open_ok := true, content_length := 3, malloc_ok := true,
    events := [⟨false, ReadRes.chunk [1, 2, 3], true⟩],
    ota_end := OtaEndRes.endOk, set_boot_ok := true,
    running_version := List.replicate 32 0, now := 5 }

/-- envShort with content length 0 (an HTTP response without a usable
Content-Length header, e.g. chunked transfer) and a single 1-byte chunk. -/
def envZeroLen : OtaEnv :=
  { envShort with content_length := 0,
                  events := [⟨false, ReadRes.chunk [7], true⟩] }

/-- A first chunk large enough for the header check, every byte 7, so its
embedded version field is thirty-two 7 bytes. -/
def bigChunk : List Nat := List.replicate 289 7

/-- An environment whose single large chunk carries exactly the running
version. -/
def envVerMatch : OtaEnv :=
  { envShort with content_length := 289,
                  events := [⟨false, ReadRes.chunk bigChunk, true⟩],
                  running_version := List.replicate 32 7 }

/-- An environment whose very first loop iteration observes the cancel
flag. -/
def envCancelFirst : OtaEnv :=
  { envShort with events := [⟨true, ReadRes.chunk [1, 2, 3], true⟩] }

/-- A configuration whose locator is the empty string. -/
def cfgEmptyUrl : OtaConfig :=
  { firmware_url := [], version := [], auto_reboot := true, timeout_ms := 30000 }

/-- A configuration with a 1-byte locator. -/
def cfgSomeUrl : OtaConfig :=
  { firmware_url := [104], version := [], auto_reboot := true, timeout_ms := 30000 }

/-- A pending water command value. -/
def cmdWater : MqttCommand :=
  { type := CommandType.water, data := [], timestamp := 0 }

/-- A full command queue: ten pending commands. -/
def fullQueue : List MqttCommand := List.replicate 10 cmdWater

/-- Bytes of the text unknown-xyz. -/
def unknownXyz : List Nat := [117, 110, 107, 110, 111, 119, 110, 45, 120, 121, 122]

/-- A task state at loop entry: fresh context over gDown0. -/
def tDown0 : TaskSt :=
  { g := gDown0, header_checked := false, new_version := List.replicate 32 0,
    downloaded := 0, binLen := 3, trace := [OtaState.downloading],
    written := [], divZero := false }

/-- An input matches the leading bytes of a literal when it equals the
first data.length bytes of that literal: this covers the literal itself and
every byte-level prefix of it, and nothing else. -/
def matchesLit (data lit : List Nat) : Bool := data == List.take data.length lit

/-- Specification mirror of the amended claim C5, written from its words
and to be compared with parse_command: a nonempty input is classified by
the first literal whose leading bytes it matches, in the source order of
the strncmp comparisons; every other input is Unknown. -/
def parseSpecAmended (data : List Nat) : CommandType :=
  if data = [] then CommandType.unknown
  else if matchesLit data lit_water_zh || matchesLit data lit_WATER then CommandType.water
  else if matchesLit data lit_GET_STATUS then CommandType.getStatus
  else if matchesLit data lit_GET_READING then CommandType.getReading
  else if matchesLit data lit_OTA_UPDATE then CommandType.otaUpdate
  else if matchesLit data lit_OTA_STATUS then CommandType.otaStatus
  else if matchesLit data lit_OTA_CANCEL then CommandType.otaCancel
  else CommandType.unknown

/-- The task state at entry to the download loop, reached when every setup
call of ota_task succeeds. -/
def loopEntry (env : OtaEnv) (g : OtaGlobals) : TaskSt :=
  { (progressUpdate
      { g := g, header_checked := false, new_version := List.replicate 32 0,
        downloaded := 0, binLen := 0, trace := [], written := [], divZero := false }
      0 OtaState.downloading) with binLen := env.content_length.toNat }

theorem ota_is_updating_iff (g : OtaGlobals) :
    ota_is_updating g = true ↔
      (g.current_state = OtaState.downloading ∨ g.current_state = OtaState.verifying ∨
       g.current_state = OtaState.installing) := by
  unfold ota_is_updating
  cases hs : g.current_state <;> simp [hs]

/-- C2 counterexample: a start call with a null configuration made while the
state is Downloading (not Idle) returns ESP_ERR_INVALID_ARG, not the claimed
StateError, because the null check runs before the state check. -/
theorem C2_counterexample :
    gDown0.current_state ≠ OtaState.idle ∧
    (ota_start_update true none gDown0).1 = EspErr.invalidArg ∧
    (ota_start_update true none gDown0).1 ≠ EspErr.invalidState := by decide

/-- C2 amended: a start call with a non-null configuration made while the
state is not Idle returns StateError and leaves the globals (state,
statistics, cancel flag and worker count) entirely unchanged; a start call
with a null configuration returns ArgumentError instead, likewise changing
nothing and spawning nothing. -/
theorem C2_amended :
    (∀ (tco : Bool) (cfg : OtaConfig) (g : OtaGlobals),
        g.current_state ≠ OtaState.idle →
        ota_start_update tco (some cfg) g = (EspErr.invalidState, g)) ∧
    (∀ (tco : Bool) (g : OtaGlobals),
        ota_start_update tco none g = (EspErr.invalidArg, g)) := by
  constructor
  · intro tco cfg g h
    simp [ota_start_update, h]
  · intro tco g
    rfl

theorem C2_amended_witness :
    gDown0.current_state ≠ OtaState.idle ∧
    ota_start_update true (some cfgSomeUrl) gDown0 = (EspErr.invalidState, gDown0) ∧
    ota_start_update true none gSucc0 = (EspErr.invalidArg, gSucc0) :=
  ⟨by decide, C2_amended.1 true cfgSomeUrl gDown0 (by decide), C2_amended.2 true gSucc0⟩

/-- C3: ota_cancel_update fails with StateError exactly outside
{Downloading, Verifying, Installing}, changing nothing, and otherwise sets
the cooperative flag and succeeds; a cancel flag observed at the top of any
download-loop iteration ends the loop at once through the failure pattern
(terminal Error, kind DownloadError, failed counter incremented, nothing
further written), and the verify/install tail does nothing once the state is
Error. -/
theorem C3_cancel :
    (∀ g : OtaGlobals,
        (g.current_state = OtaState.downloading ∨ g.current_state = OtaState.verifying ∨
          g.current_state = OtaState.installing) →
        ota_cancel_update g = (EspErr.ok, { g with cancel_requested := true })) ∧
    (∀ g : OtaGlobals,
        ¬(g.current_state = OtaState.downloading ∨ g.current_state = OtaState.verifying ∨
            g.current_state = OtaState.installing) →
        ota_cancel_update g = (EspErr.invalidState, g)) ∧
    (∀ (env : OtaEnv) (e : OtaEvent) (rest : List OtaEvent) (t : TaskSt),
        e.cancelSeen = true →
        downloadLoop env (e :: rest) t = otaFail t OtaResult.downloadError) ∧
    (∀ (t : TaskSt) (r : OtaResult),
        (otaFail t r).g.current_state = OtaState.error ∧
        (otaFail t r).g.ota_stats.last_result = r ∧
        (otaFail t r).g.ota_stats.failed_updates = inc32 t.g.ota_stats.failed_updates ∧
        (otaFail t r).written = t.written) ∧
    (∀ (env : OtaEnv) (t : TaskSt),
        t.g.current_state = OtaState.error → afterLoop env t = t) := by
  refine ⟨?_, ?_, ?_, ?_, ?_⟩
  · intro g h
    rw [ota_cancel_update, if_pos ((ota_is_updating_iff g).mpr h)]
  · intro g h
    rw [ota_cancel_update, if_neg]
    intro hcon
    exact h ((ota_is_updating_iff g).mp hcon)
  · intro env e rest t h
    simp [downloadLoop, loopIter, h]
  · intro t r
    exact ⟨rfl, rfl, rfl, rfl⟩
  · intro env t h
    rw [afterLoop, if_neg]
    simp [h]

theorem C3_cancel_witness :
    ota_cancel_update gDown0 = (EspErr.ok, { gDown0 with cancel_requested := true }) ∧
    ota_cancel_update gIdle0 = (EspErr.invalidState, gIdle0) ∧
    downloadLoop envCancelFirst [⟨true, ReadRes.chunk [1, 2, 3], true⟩] tDown0 =
      otaFail tDown0 OtaResult.downloadError ∧
    afterLoop envShort (otaFail tDown0 OtaResult.downloadError) =
      otaFail tDown0 OtaResult.downloadError :=
  ⟨C3_cancel.1 gDown0 (Or.inl rfl), C3_cancel.2.1 gIdle0 (by decide),
   C3_cancel.2.2.1 envCancelFirst ⟨true, ReadRes.chunk [1, 2, 3], true⟩ [] tDown0 rfl,
   C3_cancel.2.2.2.2 envShort (otaFail tDown0 OtaResult.downloadError) rfl⟩

/-- C8: the claim that a non-positive content length stops the worker before
the chunk loop is violated at content length 0: the guard only rejects
negative values, the loop runs, and the integer percentage expression
downloaded*100/total divides by zero on the first positive chunk. -/
theorem C8_divzero :
    envZeroLen.content_length = 0 ∧
    ¬envZeroLen.content_length < 0 ∧
    (otaTask envZeroLen gDown0).divZero = true ∧
    (otaTask envZeroLen gDown0).written = [[7]] := by decide

/-- C9 counterexample: a run whose only read is a 3-byte chunk, too small
for the firmware descriptor, does not end in DownloadError: the short chunk
is written unchecked and the update completes with Success and no recorded
failure. -/
theorem C9_counterexample :
    (otaTask envShort gDown0).g.current_state = OtaState.success ∧
    (otaTask envShort gDown0).g.ota_stats.last_result ≠ OtaResult.downloadError ∧
    (otaTask envShort gDown0).g.ota_stats.failed_updates = gDown0.ota_stats.failed_updates ∧
    (otaTask envShort gDown0).written = [[1, 2, 3]] := by decide

theorem strncmpEq_take (data : List Nat) :
    ∀ lit : List Nat, strncmpEq data lit data.length = true ↔ data = List.take data.length lit := by
  induction data with
  | nil => intro lit; simp [strncmpEq]
  | cons a as ih =>
    intro lit
    cases lit with
    | nil => simp [strncmpEq]
    | cons b bs => simp [strncmpEq, ih bs]

/-- C5 counterexample: the 3-byte input WAT is none of the seven command
literals, yet parse_command classifies it as Water: recognition is not an
exact match against the literal set. -/
theorem C5_counterexample :
    parse_command (some [87, 65, 84]) 3 = CommandType.water ∧
    [87, 65, 84] ≠ lit_WATER ∧ [87, 65, 84] ≠ lit_water_zh ∧
    [87, 65, 84] ≠ lit_GET_STATUS ∧ [87, 65, 84] ≠ lit_GET_READING ∧
    [87, 65, 84] ≠ lit_OTA_UPDATE ∧ [87, 65, 84] ≠ lit_OTA_STATUS ∧
    [87, 65, 84] ≠ lit_OTA_CANCEL := by decide

theorem strncmpEq_eq_matchesLit (data lit : List Nat) :
    strncmpEq data lit data.length = matchesLit data lit := by
  by_cases h : data = List.take data.length lit
  · rw [(strncmpEq_take data lit).mpr h]
    have h2 : matchesLit data lit = true := by
      unfold matchesLit
      exact beq_iff_eq.mpr h
    rw [h2]
  · have h1 : strncmpEq data lit data.length = false := by
      cases hb : strncmpEq data lit data.length
      · rfl
      · exact absurd ((strncmpEq_take data lit).mp hb) h
    have h2 : matchesLit data lit = false := by
      unfold matchesLit
      exact beq_eq_false_iff_ne.mpr h
    rw [h1, h2]

/-- C5 amended: recognition is strncmp bounded by the input length, so a
nonempty input is classified by the first literal (in the source order of
the comparisons) whose leading bytes it matches - the literal itself or any
nonempty byte prefix of it - and every input matching no literal this way
yields Unknown: parse_command agrees with the stated classification
parseSpecAmended on every byte string, a null pointer and a non-positive
length yield Unknown, and parse never signals an error. -/
theorem C5_amended :
    (∀ data : List Nat,
        parse_command (some data) (data.length : Int) = parseSpecAmended data) ∧
    (∀ len : Int, parse_command none len = CommandType.unknown) ∧
    (∀ (data : List Nat) (len : Int), len ≤ 0 →
        parse_command (some data) len = CommandType.unknown) ∧
    parse_command (some lit_WATER) 5 = CommandType.water ∧
    parse_command (some lit_water_zh) 6 = CommandType.water ∧
    parse_command (some lit_GET_STATUS) 10 = CommandType.getStatus ∧
    parse_command (some lit_GET_READING) 11 = CommandType.getReading ∧
    parse_command (some lit_OTA_UPDATE) 10 = CommandType.otaUpdate ∧
    parse_command (some lit_OTA_STATUS) 10 = CommandType.otaStatus ∧
    parse_command (some lit_OTA_CANCEL) 10 = CommandType.otaCancel ∧
    parse_command (some unknownXyz) 11 = CommandType.unknown := by
  refine ⟨?_, fun len => rfl, ?_, by decide, by decide, by decide, by decide, by decide,
          by decide, by decide, by decide⟩
  · intro data
    by_cases hne : data = []
    · subst hne
      rfl
    · have hlen : 0 < data.length := List.length_pos.mpr hne
      have hnotle : ¬((data.length : Int) ≤ 0) := by omega
      have htn : (data.length : Int).toNat = data.length := Int.toNat_natCast data.length
      rw [parse_command, if_neg hnotle, parseSpecAmended, if_neg hne, htn]
      simp only [strncmpEq_eq_matchesLit]
  · intro data len h
    rw [parse_command, if_pos h]

theorem C5_amended_witness :
    parse_command (some [79, 84, 65, 95]) (([79, 84, 65, 95] : List Nat).length : Int) =
      parseSpecAmended [79, 84, 65, 95] ∧
    parseSpecAmended [79, 84, 65, 95] = CommandType.otaUpdate ∧
    parse_command (some [87, 65, 84]) (([87, 65, 84] : List Nat).length : Int) =
      parseSpecAmended [87, 65, 84] ∧
    parseSpecAmended [87, 65, 84] = CommandType.water ∧
    parse_command (some unknownXyz) ((unknownXyz.length : Nat) : Int) =
      parseSpecAmended unknownXyz ∧
    parseSpecAmended unknownXyz = CommandType.unknown ∧
    ((-2 : Int) ≤ 0 ∧ parse_command (some [87, 65]) (-2) = CommandType.unknown) :=
  ⟨C5_amended.1 [79, 84, 65, 95], by decide,
   C5_amended.1 [87, 65, 84], by decide,
   C5_amended.1 unknownXyz, by decide,
   by decide, C5_amended.2.2.1 [87, 65] (-2) (by decide)⟩

/-- C6: the command queue capacity is the constant 10; a non-blocking
enqueue onto a queue already holding 10 commands fails with
ESP_ERR_TIMEOUT (the Busy of the spec) leaving the queue unchanged, and
onto a non-full queue appends the built command at the tail (FIFO) and
succeeds. -/
theorem C6_queue_capacity :
    COMMAND_QUEUE_SIZE = 10 ∧
    (∀ (q : List MqttCommand) (ty : CommandType) (d : Option (List Nat)) (now : Nat),
        q.length = COMMAND_QUEUE_SIZE →
        enqueue_command ⟨some q⟩ ty d now = (EspErr.timeout, ⟨some q⟩)) ∧
    (∀ (q : List MqttCommand) (ty : CommandType) (d : Option (List Nat)) (now : Nat),
        q.length < COMMAND_QUEUE_SIZE →
        enqueue_command ⟨some q⟩ ty d now =
          (EspErr.ok,
            ⟨some (q ++ [{ type := ty,
                           data := match d with | some x => cstr63 x | none => [],
                           timestamp := now }])⟩)) := by
  refine ⟨rfl, ?_, ?_⟩
  · intro q ty d now h
    simp [enqueue_command, h]
  · intro q ty d now h
    simp [enqueue_command, h]

theorem C6_queue_capacity_witness :
    fullQueue.length = COMMAND_QUEUE_SIZE ∧
    enqueue_command ⟨some fullQueue⟩ CommandType.water none 3 = (EspErr.timeout, ⟨some fullQueue⟩) ∧
    enqueue_command ⟨some []⟩ CommandType.otaStatus none 4 =
      (EspErr.ok, ⟨some [{ type := CommandType.otaStatus, data := [], timestamp := 4 }]⟩) := by
  refine ⟨by decide, C6_queue_capacity.2.1 fullQueue CommandType.water none 3 (by decide), ?_⟩
  simpa using C6_queue_capacity.2.2 [] CommandType.otaStatus none 4 (by decide)

/-- C7 counterexample: ota_start_update performs no emptiness check on the
locator: from Idle with an empty firmware_url it returns ESP_OK, counts the
attempt, enters Downloading and spawns the worker, instead of the claimed
ArgumentError. -/
theorem C7_counterexample :
    cfgEmptyUrl.firmware_url = [] ∧
    (ota_start_update true (some cfgEmptyUrl) gIdle0).1 = EspErr.ok ∧
    (ota_start_update true (some cfgEmptyUrl) gIdle0).1 ≠ EspErr.invalidArg ∧
    (ota_start_update true (some cfgEmptyUrl) gIdle0).2.current_state = OtaState.downloading ∧
    (ota_start_update true (some cfgEmptyUrl) gIdle0).2.workers = gIdle0.workers + 1 := by decide

/-- C7 amended: the empty-locator rejection lives in the dispatcher, not in
the engine: execute_ota_update_command fails with ArgumentError on a null or
empty firmware URL (whenever the rejection response publish does not itself
fail) without touching the OTA globals or spawning a worker, while
ota_start_update itself rejects only a null configuration with
ArgumentError. -/
theorem C7_amended :
    (∀ (cenv : CmdEnv) (tco : Bool) (rv : List Nat) (g : OtaGlobals),
        cenv.client_present = false ∨ cenv.publish_ok = true →
        execute_ota_update_command cenv tco rv (some []) g = (EspErr.invalidArg, g) ∧
        execute_ota_update_command cenv tco rv none g = (EspErr.invalidArg, g)) ∧
    (∀ (tco : Bool) (g : OtaGlobals),
        ota_start_update tco none g = (EspErr.invalidArg, g)) := by
  refine ⟨?_, fun tco g => rfl⟩
  intro cenv tco rv g h
  rcases h with h | h
  · constructor <;> simp [execute_ota_update_command, send_mqtt_response, h]
  · by_cases hc : cenv.client_present = true
    · constructor <;> simp [execute_ota_update_command, send_mqtt_response, h, hc]
    · constructor <;> simp [execute_ota_update_command, send_mqtt_response, hc]

theorem C7_amended_witness :
    execute_ota_update_command ⟨true, true⟩ true [] (some []) gIdle0 =
      (EspErr.invalidArg, gIdle0) ∧
    execute_ota_update_command ⟨true, true⟩ true [] none gIdle0 =
      (EspErr.invalidArg, gIdle0) ∧
    ota_start_update false none gDown0 = (EspErr.invalidArg, gDown0) :=
  ⟨(C7_amended.1 ⟨true, true⟩ true [] gIdle0 (Or.inr rfl)).1,
   (C7_amended.1 ⟨true, true⟩ true [] gIdle0 (Or.inr rfl)).2,
   C7_amended.2 false gDown0⟩

/-- C10 counterexample: when the rejection response publish fails, the
empty-URL OTA command is rejected with the publish error
ESP_ERR_INVALID_RESPONSE, not with ArgumentError as claimed. -/
theorem C10_counterexample :
    execute_ota_update_command ⟨true, false⟩ true [] (some []) gIdle0 =
      (EspErr.invalidResponse, gIdle0) ∧
    EspErr.invalidResponse ≠ EspErr.invalidArg := by decide

/-- C10 amended: every command the transport callback enqueues carries the
empty payload (the callback passes a null pointer and enqueue stores the
empty string), and executing OTA_UPDATE with an empty payload never starts
an update: the OTA globals (state, statistics, workers) are unchanged, the
result is never ESP_OK, and it is ArgumentError whenever the rejection
response publish does not itself fail; hence no firmware update can be
started through the transport path. -/
theorem C10_amended :
    (∀ (data : Option (List Nat)) (len : Int) (now : Nat) (g : CmdGlobals),
        (mqtt_on_data data len now g).command_queue = g.command_queue ∨
        ∃ (q : List MqttCommand) (ty : CommandType),
          g.command_queue = some q ∧
          (mqtt_on_data data len now g).command_queue =
            some (q ++ [{ type := ty, data := [], timestamp := now }])) ∧
    (∀ (cenv : CmdEnv) (tco : Bool) (rv : List Nat) (g : OtaGlobals),
        (execute_ota_update_command cenv tco rv (some []) g).2 = g ∧
        (execute_ota_update_command cenv tco rv (some []) g).1 ≠ EspErr.ok ∧
        (cenv.client_present = false ∨ cenv.publish_ok = true →
          (execute_ota_update_command cenv tco rv (some []) g).1 = EspErr.invalidArg)) := by
  constructor
  · intro data len now g
    rw [mqtt_on_data]
    by_cases hu : parse_command data len = CommandType.unknown
    · simp [hu]
    · rw [if_pos hu]
      cases hq : g.command_queue with
      | none => left; simp [enqueue_command, hq]
      | some q =>
        by_cases hfull : q.length < COMMAND_QUEUE_SIZE
        · right
          exact ⟨q, parse_command data len, rfl, by simp [enqueue_command, hq, hfull]⟩
        · left; simp [enqueue_command, hq, hfull]
  · intro cenv tco rv g
    refine ⟨?_, ?_, ?_⟩
    · by_cases hc : cenv.client_present = true <;> by_cases hp : cenv.publish_ok = true <;>
        simp [execute_ota_update_command, send_mqtt_response, hc, hp]
    · by_cases hc : cenv.client_present = true <;> by_cases hp : cenv.publish_ok = true <;>
        simp [execute_ota_update_command, send_mqtt_response, hc, hp]
    · intro h
      rcases h with h | h
      · simp [execute_ota_update_command, send_mqtt_response, h]
      · by_cases hc : cenv.client_present = true
        · simp [execute_ota_update_command, send_mqtt_response, h, hc]
        · simp [execute_ota_update_command, send_mqtt_response, hc]

theorem allowedStep_refl (s : OtaState) : allowedStep s s := Or.inl rfl

theorem chainSnoc (tr : List OtaState) (c s : OtaState)
    (h1 : List.Chain' allowedStep tr) (h3 : tr.getLast? = some c)
    (hs : allowedStep c s) : List.Chain' allowedStep (tr ++ [s]) := by
  refine List.Chain'.append h1 (List.chain'_singleton s) ?_
  intro x hx y hy
  rw [h3] at hx
  simp only [Option.mem_def, Option.some.injEq, List.head?_cons] at hx hy
  rw [← hx, ← hy]
  exact hs

theorem headSnoc (tr : List OtaState) (s : OtaState)
    (h : tr.head? = some OtaState.downloading) :
    (tr ++ [s]).head? = some OtaState.downloading := by
  cases tr with
  | nil => exact absurd h (by simp)
  | cons a as => simpa using h

theorem traceInv_pushState (t : TaskSt) (s : OtaState)
    (h : traceInv t) (hs : allowedStep t.g.current_state s) :
    traceInv (pushState t s) := by
  obtain ⟨h1, h2, h3⟩ := h
  refine ⟨chainSnoc t.trace t.g.current_state s h1 h3 hs, headSnoc t.trace s h2, ?_⟩
  exact List.getLast?_concat t.trace

theorem traceInv_progressUpdate (t : TaskSt) (p : Nat) (s : OtaState)
    (h : traceInv t) (hs : allowedStep t.g.current_state s) :
    traceInv (progressUpdate t p s) :=
  traceInv_pushState { t with g := { t.g with current_progress := p } } s h hs

theorem traceInv_otaFail (t : TaskSt) (r : OtaResult)
    (h : traceInv t) (hs : allowedStep t.g.current_state OtaState.error) :
    traceInv (otaFail t r) := by
  have h2 := traceInv_pushState t OtaState.error h hs
  exact ⟨h2.1, h2.2.1, h2.2.2⟩

theorem applyHeader_g (bytes : List Nat) (t : TaskSt) :
    (applyHeader bytes t).g = t.g := by
  unfold applyHeader; split <;> rfl

theorem applyHeader_trace (bytes : List Nat) (t : TaskSt) :
    (applyHeader bytes t).trace = t.trace := by
  unfold applyHeader; split <;> rfl

theorem applyHeader_written (bytes : List Nat) (t : TaskSt) :
    (applyHeader bytes t).written = t.written := by
  unfold applyHeader; split <;> rfl

theorem traceInv_applyHeader (bytes : List Nat) (t : TaskSt)
    (h : traceInv t) : traceInv (applyHeader bytes t) := by
  rw [traceInv, applyHeader_trace, applyHeader_g]
  exact h

theorem stepProgress_state (t2 : TaskSt)
    (hs : t2.g.current_state = OtaState.downloading) :
    (stepProgress t2).g.current_state = OtaState.downloading := by
  unfold stepProgress; split
  · rfl
  · exact hs

theorem stepProgress_traceInv (t2 : TaskSt)
    (hs : t2.g.current_state = OtaState.downloading) (hi : traceInv t2) :
    traceInv (stepProgress t2) := by
  unfold stepProgress
  split
  · exact traceInv_progressUpdate _ _ _ hi (by rw [hs]; exact allowedStep_refl _)
  · exact hi

theorem stepProgress_stats (t2 : TaskSt) :
    (stepProgress t2).g.ota_stats = t2.g.ota_stats := by
  unfold stepProgress; split <;> rfl

theorem stepProgress_written (t2 : TaskSt) :
    (stepProgress t2).written = t2.written := by
  unfold stepProgress; split <;> rfl

theorem stepProgress_header (t2 : TaskSt) :
    (stepProgress t2).header_checked = t2.header_checked := by
  unfold stepProgress; split <;> rfl

theorem loopIter_inv (env : OtaEnv) (e : OtaEvent) (t : TaskSt)
    (hs : t.g.current_state = OtaState.downloading) (hi : traceInv t) :
    traceInv (loopIter env e t).2 ∧
    ((loopIter env e t).2.g.current_state = OtaState.downloading ∨
      (loopIter env e t).2.g.current_state = OtaState.error) := by
  have hde : allowedStep t.g.current_state OtaState.error := by
    rw [hs]; exact Or.inr rfl
  have hde1 : allowedStep (applyHeader (chunkBytes e) t).g.current_state OtaState.error := by
    rw [applyHeader_g, hs]; exact Or.inr rfl
  unfold loopIter
  split
  · exact ⟨traceInv_otaFail t _ hi hde, Or.inr rfl⟩
  · split
    · exact ⟨traceInv_otaFail t _ hi hde, Or.inr rfl⟩
    · rename_i bytes heq
      split
      · exact ⟨hi, Or.inl hs⟩
      · split
        · exact ⟨traceInv_otaFail t _ hi hde, Or.inr rfl⟩
        · split
          · refine ⟨traceInv_otaFail _ _ (traceInv_applyHeader bytes t hi) ?_, Or.inr rfl⟩
            rw [applyHeader_g, hs]; exact Or.inr rfl
          · have hsb : (applyHeader bytes t).g.current_state = OtaState.downloading := by
              rw [applyHeader_g]; exact hs
            have hsw : (stepWrite bytes (applyHeader bytes t)).g.current_state
                = OtaState.downloading := by
              unfold stepWrite
              exact stepProgress_state _ hsb
            refine ⟨?_, Or.inl hsw⟩
            unfold stepWrite
            exact stepProgress_traceInv _ hsb (traceInv_applyHeader bytes t hi)

theorem loopIter_continue_state (env : OtaEnv) (e : OtaEvent) (t : TaskSt)
    (hs : t.g.current_state = OtaState.downloading)
    (hb : (loopIter env e t).1 = true) :
    (loopIter env e t).2.g.current_state = OtaState.downloading := by
  revert hb
  unfold loopIter
  split
  · intro hb; exact absurd hb (by simp)
  · split
    · intro hb; exact absurd hb (by simp)
    · rename_i bytes heq
      split
      · intro hb; exact absurd hb (by simp)
      · split
        · intro hb; exact absurd hb (by simp)
        · split
          · intro hb; exact absurd hb (by simp)
          · intro hb
            unfold stepWrite
            exact stepProgress_state _ (by rw [applyHeader_g]; exact hs)

theorem downloadLoop_inv (env : OtaEnv) (evts : List OtaEvent) :
    ∀ t : TaskSt, t.g.current_state = OtaState.downloading → traceInv t →
      traceInv (downloadLoop env evts t) ∧
      ((downloadLoop env evts t).g.current_state = OtaState.downloading ∨
        (downloadLoop env evts t).g.current_state = OtaState.error) := by
  induction evts with
  | nil =>
    intro t hs hi
    exact ⟨hi, Or.inl hs⟩
  | cons e rest ih =>
    intro t hs hi
    have hit := loopIter_inv env e t hs hi
    rw [downloadLoop]
    by_cases hb : (loopIter env e t).1 = true
    · rw [if_pos hb]
      exact ih (loopIter env e t).2 (loopIter_continue_state env e t hs hb) hit.1
    · rw [if_neg hb]
      exact hit

theorem afterInstall_inv (env : OtaEnv) (t2 : TaskSt)
    (hs : t2.g.current_state = OtaState.installing) (hi : traceInv t2) :
    traceInv (afterInstall env t2) := by
  unfold afterInstall
  split
  · exact traceInv_otaFail _ _ hi (by rw [hs]; exact Or.inr rfl)
  · have h5 := traceInv_pushState t2 OtaState.success hi (by rw [hs]; exact Or.inr rfl)
    have h5r : traceInv (recordSuccess env (pushState t2 OtaState.success)) :=
      ⟨h5.1, h5.2.1, h5.2.2⟩
    exact traceInv_progressUpdate _ _ _ h5r (allowedStep_refl _)

theorem afterVerify_inv (env : OtaEnv) (t1 : TaskSt)
    (hs : t1.g.current_state = OtaState.verifying) (hi : traceInv t1) :
    traceInv (afterVerify env t1) := by
  unfold afterVerify
  split
  · exact traceInv_otaFail _ _ hi (by rw [hs]; exact Or.inr rfl)
  · exact traceInv_otaFail _ _ hi (by rw [hs]; exact Or.inr rfl)
  · have h3 := traceInv_pushState t1 OtaState.installing hi (by rw [hs]; exact Or.inr rfl)
    exact afterInstall_inv env _ rfl (traceInv_progressUpdate _ _ _ h3 (allowedStep_refl _))

theorem afterLoop_inv (env : OtaEnv) (t : TaskSt)
    (hst : t.g.current_state = OtaState.downloading ∨ t.g.current_state = OtaState.error)
    (hi : traceInv t) : traceInv (afterLoop env t) := by
  rcases hst with hd | he
  · rw [afterLoop, if_pos (by rw [hd]; decide)]
    have h1 : traceInv (pushState t OtaState.verifying) :=
      traceInv_pushState t _ hi (by rw [hd]; exact Or.inr rfl)
    exact afterVerify_inv env _ rfl (traceInv_progressUpdate _ _ _ h1 (allowedStep_refl _))
  · rw [afterLoop, if_neg (by rw [he]; simp)]
    exact hi

theorem otaTask_inv (env : OtaEnv) (g : OtaGlobals) : traceInv (otaTask env g) := by
  have hbase : traceInv (progressUpdate
      { g := g, header_checked := false, new_version := List.replicate 32 0,
        downloaded := 0, binLen := 0, trace := [], written := [], divZero := false }
      0 OtaState.downloading) :=
    ⟨List.chain'_singleton _, rfl, rfl⟩
  rw [otaTask]
  split
  · exact traceInv_otaFail _ _ hbase (Or.inr rfl)
  · split
    · exact traceInv_otaFail _ _ hbase (Or.inr rfl)
    · split
      · exact traceInv_otaFail _ _ hbase (Or.inr rfl)
      · split
        · exact traceInv_otaFail _ _ hbase (Or.inr rfl)
        · split
          · exact traceInv_otaFail _ _ hbase (Or.inr rfl)
          · split
            · exact traceInv_otaFail _ _
                (⟨hbase.1, hbase.2.1, hbase.2.2⟩ : traceInv
                  { (progressUpdate
                      { g := g, header_checked := false,
                        new_version := List.replicate 32 0, downloaded := 0,
                        binLen := 0, trace := [], written := [], divZero := false }
                      0 OtaState.downloading) with binLen := env.content_length.toNat })
                (Or.inr rfl)
            · have hloop := downloadLoop_inv env env.events
                { (progressUpdate
                    { g := g, header_checked := false, new_version := List.replicate 32 0,
                      downloaded := 0, binLen := 0, trace := [], written := [],
                      divZero := false }
                    0 OtaState.downloading) with binLen := env.content_length.toNat }
                rfl ⟨hbase.1, hbase.2.1, hbase.2.2⟩
              exact afterLoop_inv env _ hloop.2 hloop.1

/-- C1: over any modelled execution - a start call followed by the complete
worker run - every assignment to UpdateState follows the DAG
Idle to Downloading to (Verifying to Installing to Success, or Error), with
Error reachable exactly from the in-flight states; and Success and Error are
terminal: start, cancel, resetStatistics and the state query leave a
terminal state unchanged, and a rejected start spawns no second worker. -/
theorem C1_state_dag :
    (∀ (tco : Bool) (env : OtaEnv) (cfg : OtaConfig) (g : OtaGlobals),
        List.Chain' allowedStep (runTrace tco env cfg g)) ∧
    (∀ (tco : Bool) (cfg : Option OtaConfig) (g : OtaGlobals),
        g.current_state = OtaState.success ∨ g.current_state = OtaState.error →
        (ota_start_update tco cfg g).2.current_state = g.current_state ∧
        (ota_start_update tco cfg g).2.workers = g.workers ∧
        (ota_cancel_update g).2.current_state = g.current_state ∧
        (ota_reset_statistics g).2.current_state = g.current_state ∧
        ota_get_state g = g.current_state) := by
  constructor
  · intro tco env cfg g
    rw [runTrace]
    by_cases hok : (ota_start_update tco (some cfg) g).1 = EspErr.ok
    · rw [if_pos hok]
      have hidle : g.current_state = OtaState.idle := by
        by_contra hne
        rw [ota_start_update] at hok
        simp [hne] at hok
      have hinv := otaTask_inv env (ota_start_update tco (some cfg) g).2
      rw [List.chain'_cons]
      constructor
      · rw [hidle]; exact Or.inr rfl
      · rw [List.chain'_cons']
        refine ⟨?_, hinv.1⟩
        intro y hy
        rw [hinv.2.1] at hy
        simp only [Option.mem_def, Option.some.injEq] at hy
        rw [← hy]
        exact allowedStep_refl _
    · rw [if_neg hok]
      exact List.chain'_singleton _
  · intro tco cfg g ht
    have hne : g.current_state ≠ OtaState.idle := by
      rcases ht with h | h <;> simp [h]
    have hnu : ¬ota_is_updating g = true := by
      rcases ht with h | h <;> simp [ota_is_updating, h]
    refine ⟨?_, ?_, ?_, rfl, rfl⟩
    · cases cfg with
      | none => rfl
      | some c => simp [ota_start_update, hne]
    · cases cfg with
      | none => rfl
      | some c => simp [ota_start_update, hne]
    · rw [ota_cancel_update, if_neg hnu]

theorem C1_state_dag_witness :
    List.Chain' allowedStep (runTrace true envShort cfgSomeUrl gIdle0) ∧
    (gSucc0.current_state = OtaState.success ∨ gSucc0.current_state = OtaState.error) ∧
    (ota_start_update true (some cfgSomeUrl) gSucc0).2.current_state = gSucc0.current_state ∧
    (ota_start_update true (some cfgSomeUrl) gSucc0).2.workers = gSucc0.workers ∧
    (ota_cancel_update gSucc0).2.current_state = gSucc0.current_state ∧
    (ota_reset_statistics gSucc0).2.current_state = gSucc0.current_state ∧
    ota_get_state gSucc0 = gSucc0.current_state := by
  have h := C1_state_dag.2 true (some cfgSomeUrl) gSucc0 (Or.inl rfl)
  exact ⟨C1_state_dag.1 true envShort cfgSomeUrl gIdle0, Or.inl rfl,
    h.1, h.2.1, h.2.2.1, h.2.2.2.1, h.2.2.2.2⟩

theorem otaFail_state (t : TaskSt) (r : OtaResult) :
    (otaFail t r).g.current_state = OtaState.error := rfl

theorem otaFail_last (t : TaskSt) (r : OtaResult) :
    (otaFail t r).g.ota_stats.last_result = r := rfl

theorem otaFail_failed (t : TaskSt) (r : OtaResult) :
    (otaFail t r).g.ota_stats.failed_updates = inc32 t.g.ota_stats.failed_updates := rfl

theorem otaFail_written (t : TaskSt) (r : OtaResult) :
    (otaFail t r).written = t.written := rfl

theorem downloadLoop_cons (env : OtaEnv) (e : OtaEvent) (rest : List OtaEvent) (t : TaskSt) :
    downloadLoop env (e :: rest) t =
      if (loopIter env e t).1 then downloadLoop env rest (loopIter env e t).2
      else (loopIter env e t).2 := rfl

theorem stepWrite_state (bytes : List Nat) (t : TaskSt)
    (hs : t.g.current_state = OtaState.downloading) :
    (stepWrite bytes t).g.current_state = OtaState.downloading :=
  stepProgress_state _ hs

theorem stepWrite_stats (bytes : List Nat) (t : TaskSt) :
    (stepWrite bytes t).g.ota_stats = t.g.ota_stats :=
  stepProgress_stats _

theorem stepWrite_written (bytes : List Nat) (t : TaskSt) :
    (stepWrite bytes t).written = t.written ++ [bytes] :=
  stepProgress_written _

theorem stepWrite_header (bytes : List Nat) (t : TaskSt) :
    (stepWrite bytes t).header_checked = t.header_checked :=
  stepProgress_header _

theorem loopIter_short (env : OtaEnv) (e : OtaEvent) (t : TaskSt) (bytes : List Nat)
    (hc : e.cancelSeen = false) (hw : e.write_ok = true)
    (hr : e.read = ReadRes.chunk bytes) (h0 : 0 < bytes.length)
    (hb : bytes.length ≤ headerBound) (hh : t.header_checked = false) :
    loopIter env e t = (true, stepWrite bytes t) := by
  have hblen : ¬bytes.length = 0 := by omega
  have hnlt : ¬headerBound < bytes.length := by omega
  simp [loopIter, hr, hc, hw, hblen, hnlt, applyHeader, hh]

theorem downloadLoop_shortPre (env : OtaEnv) (pre : List OtaEvent) :
    ∀ (l : List OtaEvent) (t : TaskSt),
      (∀ e ∈ pre, shortOkEvent e = true) →
      t.g.current_state = OtaState.downloading →
      t.header_checked = false →
      ∃ t1 : TaskSt,
        downloadLoop env (pre ++ l) t = downloadLoop env l t1 ∧
        t1.g.current_state = OtaState.downloading ∧
        t1.header_checked = false ∧
        t1.g.ota_stats = t.g.ota_stats ∧
        t1.written = t.written ++ pre.map chunkBytes := by
  induction pre with
  | nil =>
    intro l t hpre hs hh
    exact ⟨t, rfl, hs, hh, rfl, by simp⟩
  | cons e pre ih =>
    intro l t hpre hs hh
    have he := hpre e (by simp)
    obtain ⟨bytes, hr, hc, hw, h0, hb⟩ :
        ∃ bytes, e.read = ReadRes.chunk bytes ∧ e.cancelSeen = false ∧
          e.write_ok = true ∧ 0 < bytes.length ∧ bytes.length ≤ headerBound := by
      unfold shortOkEvent at he
      cases hre : e.read with
      | readErr => rw [hre] at he; simp at he
      | chunk b =>
        rw [hre] at he
        simp at he
        exact ⟨b, rfl, by tauto, by tauto, by tauto, by tauto⟩
    have hstep := loopIter_short env e t bytes hc hw hr h0 hb hh
    rw [List.cons_append, downloadLoop_cons, hstep, if_pos rfl]
    obtain ⟨t1, heq, hs1, hh1, hstats1, hwr1⟩ :=
      ih l (stepWrite bytes t) (fun x hx => hpre x (by simp [hx]))
        (stepWrite_state bytes t hs) (by rw [stepWrite_header]; exact hh)
    refine ⟨t1, heq, hs1, hh1, ?_, ?_⟩
    · rw [hstats1, stepWrite_stats]
    · rw [hwr1, stepWrite_written]
      simp [chunkBytes, hr]

theorem otaTask_setup (env : OtaEnv) (g : OtaGlobals)
    (h1 : env.client_init_ok = true) (h2 : env.partition_ok = true)
    (h3 : env.ota_begin_ok = true) (h4 : env.http_open_ok = true)
    (h5 : 0 ≤ env.content_length) (h6 : env.malloc_ok = true) :
    otaTask env g = afterLoop env (downloadLoop env env.events (loopEntry env g)) := by
  rw [otaTask]
  simp [h1, h2, h3, h4, h6, not_lt.mpr h5, loopEntry]

/-- C4: when the download reaches, after any run of short normally-processed
chunks, the first chunk large enough for the embedded firmware descriptor,
and the version bytes at the fixed offset are identical to the running
version, ota_task ends in terminal Error with kind VerifyError, increments
the failed counter by one, and hands neither that chunk nor any later bytes
to esp_ota_write: the written chunks are exactly the earlier short ones. -/
theorem C4_version_match :
    ∀ (env : OtaEnv) (g : OtaGlobals) (pre rest : List OtaEvent) (e : OtaEvent)
      (bytes : List Nat),
      env.client_init_ok = true → env.partition_ok = true → env.ota_begin_ok = true →
      env.http_open_ok = true → 0 ≤ env.content_length → env.malloc_ok = true →
      env.events = pre ++ e :: rest →
      (∀ x ∈ pre, shortOkEvent x = true) →
      e.cancelSeen = false → e.read = ReadRes.chunk bytes →
      headerBound < bytes.length → versionOf bytes = env.running_version →
      (otaTask env g).g.current_state = OtaState.error ∧
      (otaTask env g).g.ota_stats.last_result = OtaResult.verifyError ∧
      (otaTask env g).g.ota_stats.failed_updates = inc32 g.ota_stats.failed_updates ∧
      (otaTask env g).written = pre.map chunkBytes := by
  intro env g pre rest e bytes h1 h2 h3 h4 h5 h6 hev hpre hc hr hlen hver
  rw [otaTask_setup env g h1 h2 h3 h4 h5 h6, hev]
  obtain ⟨t1, heq, hs1, hh1, hstats1, hwr1⟩ :=
    downloadLoop_shortPre env pre (e :: rest) (loopEntry env g) hpre rfl rfl
  rw [heq]
  have hfail : loopIter env e t1 = (false, otaFail t1 OtaResult.verifyError) := by
    have hblen : ¬bytes.length = 0 := by
      have := headerBound
      omega
    simp [loopIter, hr, hc, hh1, hlen, hblen, ota_validate_image_header, hver]
  rw [downloadLoop_cons, hfail, if_neg (by simp)]
  rw [afterLoop, if_neg (by simp [otaFail_state])]
  refine ⟨otaFail_state _ _, otaFail_last _ _, ?_, ?_⟩
  · rw [otaFail_failed, hstats1]
    simp [loopEntry, progressUpdate, pushState]
  · rw [otaFail_written, hwr1]
    simp [loopEntry, progressUpdate, pushState]

set_option maxRecDepth 8192 in
theorem C4_version_match_witness :
    (otaTask envVerMatch gDown0).g.current_state = OtaState.error ∧
    (otaTask envVerMatch gDown0).g.ota_stats.last_result = OtaResult.verifyError ∧
    (otaTask envVerMatch gDown0).g.ota_stats.failed_updates =
      inc32 gDown0.ota_stats.failed_updates ∧
    (otaTask envVerMatch gDown0).written = [] := by
  have h := C4_version_match envVerMatch gDown0 [] []
    ⟨false, ReadRes.chunk bigChunk, true⟩ bigChunk
    rfl rfl rfl rfl (by decide) rfl rfl
    (by intro x hx; exact absurd hx (List.not_mem_nil x))
    rfl rfl (by decide) (by decide)
  simpa using h

/-- C9 amended: a chunk too small to contain the firmware descriptor is not
an error: the header check is skipped (the header stays unchecked), the
chunk is written to the partition, statistics and state are untouched, and
the loop simply continues; no DownloadError arises from a header-length
short read. -/
theorem C9_amended :
    ∀ (env : OtaEnv) (rest : List OtaEvent) (e : OtaEvent) (bytes : List Nat) (t : TaskSt),
      t.g.current_state = OtaState.downloading → t.header_checked = false →
      e.cancelSeen = false → e.read = ReadRes.chunk bytes →
      0 < bytes.length → bytes.length ≤ headerBound → e.write_ok = true →
      ∃ t1 : TaskSt,
        downloadLoop env (e :: rest) t = downloadLoop env rest t1 ∧
        t1.header_checked = false ∧
        t1.g.current_state = OtaState.downloading ∧
        t1.g.ota_stats = t.g.ota_stats ∧
        t1.written = t.written ++ [bytes] := by
  intro env rest e bytes t hs hh hc hr h0 hb hw
  obtain ⟨t1, heq, hs1, hh1, hstats1, hwr1⟩ :=
    downloadLoop_shortPre env [e] rest t
      (by
        intro x hx
        simp only [List.mem_singleton] at hx
        subst hx
        simp [shortOkEvent, hc, hw, hr, h0, hb])
      hs hh
  refine ⟨t1, by simpa using heq, hh1, hs1, hstats1, ?_⟩
  rw [hwr1]
  simp [chunkBytes, hr]

theorem C9_amended_witness :
    ∃ t1 : TaskSt,
      downloadLoop envShort [⟨false, ReadRes.chunk [1, 2, 3], true⟩] tDown0 =
        downloadLoop envShort [] t1 ∧
      t1.header_checked = false ∧
      t1.g.current_state = OtaState.downloading ∧
      t1.g.ota_stats = tDown0.g.ota_stats ∧
      t1.written = tDown0.written ++ [[1, 2, 3]] :=
  C9_amended envShort [] ⟨false, ReadRes.chunk [1, 2, 3], true⟩ [1, 2, 3] tDown0
    rfl rfl rfl rfl (by decide) (by decide) rfl

theorem C10_amended_witness :
    (mqtt_on_data (some lit_OTA_UPDATE) 10 7 ⟨some []⟩).command_queue = (⟨some []⟩ : CmdGlobals).command_queue ∨
    (∃ (q : List MqttCommand) (ty : CommandType),
      (⟨some []⟩ : CmdGlobals).command_queue = some q ∧
      (mqtt_on_data (some lit_OTA_UPDATE) 10 7 ⟨some []⟩).command_queue =
        some (q ++ [{ type := ty, data := [], timestamp := 7 }])) ∧
    (execute_ota_update_command ⟨true, true⟩ true [] (some []) gIdle0).2 = gIdle0 ∧
    (execute_ota_update_command ⟨true, true⟩ true [] (some []) gIdle0).1 ≠ EspErr.ok :=
  Or.inr ⟨(C10_amended.1 (some lit_OTA_UPDATE) 10 7 ⟨some []⟩).resolve_left (by decide),
          (C10_amended.2 ⟨true, true⟩ true [] gIdle0).1,
          (C10_amended.2 ⟨true, true⟩ true [] gIdle0).2.1⟩

end EspIdf
